import Mathlib

/-!
Shallow embedding of `alb_script/deploy.py`: the CloudFormation template
planner (`plan`) and the reconciler (`apply`, `delete`).

The planner is embedded as a pure function from the inputs and an
instance-discovery function to a template value; the `Resources` mapping of
the template is a Python `dict`, modelled as an insertion-ordered
association list where inserting an existing key replaces its value in
place (Python 3.7+ dict semantics).  The reconciler is embedded as a
function from an oracle of control-plane responses to the list of AWS API
actions it performs together with its Python return value; boto3 exceptions
are modelled as `Except` errors propagating outward.
-/

namespace AlbScript

/-- One entry of the `versions` array of `plan`: the tuple
`(version, weight, [cluster_id, ...])`. -/
structure VersionSpec where
  version : String
  weight : Int
  clusters : List String
deriving DecidableEq

/-- One element of the `Targets` list of a target group:
`{"Id": instance, "Port": 8000}`. -/
structure Target where
  id : String
  port : Nat
deriving DecidableEq

/-- One element of `ForwardConfig.TargetGroups`:
`{"TargetGroupArn": {"Ref": ...}, "Weight": weight}`. -/
structure TargetGroupWeight where
  targetGroupRef : String
  weight : Int
deriving DecidableEq

/-- Properties of the `AWS::ElasticLoadBalancingV2::LoadBalancer` resource. -/
structure LoadBalancerProps where
  ipAddressType : String
  name : String
  securityGroupsRef : String
  subnetsRef : String
  albType : String
deriving DecidableEq

/-- One element of the listener's `DefaultActions` list. -/
structure ForwardAction where
  actionType : String
  targetGroups : List TargetGroupWeight
deriving DecidableEq

/-- Properties of the `AWS::ElasticLoadBalancingV2::Listener` resource. -/
structure ListenerProps where
  loadBalancerRef : String
  port : Nat
  protocol : String
  defaultActions : List ForwardAction
deriving DecidableEq

/-- Properties of an `AWS::ElasticLoadBalancingV2::TargetGroup` resource. -/
structure TargetGroupProps where
  healthCheckIntervalSeconds : Nat
  healthCheckTimeoutSeconds : Nat
  healthyThresholdCount : Nat
  healthCheckPath : String
  name : String
  port : Nat
  protocol : String
  protocolVersion : String
  vpcIdRef : String
  targets : List Target
deriving DecidableEq

/-- A value of the `Resources` dict of the template. -/
inductive Resource where
  | loadBalancer (props : LoadBalancerProps)
  | listener (props : ListenerProps)
  | targetGroup (props : TargetGroupProps)
deriving DecidableEq

/-- One entry of the `Parameters` dict of the template. -/
structure ParamDecl where
  description : String
  paramType : String
deriving DecidableEq

/-- The template returned by `plan`: the dict
`{"Parameters": params, "Resources": resources}` (before JSON
serialization, which is injective on this data). -/
structure CfTemplate where
  parameters : List (String × ParamDecl)
  resources : List (String × Resource)
deriving DecidableEq

/-- Instance-discovery function: `find_instances(region, clusters)`,
returning the ids of running instances matching any of the cluster ids.
It is a collaborator external to the planner and is passed in explicitly. -/
def Disc : Type := String → List String → List String

/-- Insertion into a Python `dict` rendered as an ordered association list:
an existing key keeps its position and has its value replaced; a fresh key
is appended at the end. -/
def dictInsert (k : String) (v : Resource) :
    List (String × Resource) → List (String × Resource)
  | [] => [(k, v)]
  | (k₀, v₀) :: rest =>
      if k₀ = k then (k, v) :: rest else (k₀, v₀) :: dictInsert k v rest

/-- Keys of an ordered association list. -/
def dictKeys (l : List (String × Resource)) : List String :=
  l.map Prod.fst

/-- Lookup in an ordered association list. -/
def dictFind (k : String) : List (String × Resource) → Option Resource
  | [] => none
  | (k₀, v) :: rest => if k₀ = k then some v else dictFind k rest

/-- The resource key `f"ALB{stack_name}"`. -/
def albKey (stackName : String) : String := "ALB" ++ stackName

/-- The resource key `f"ALBListener{stack_name}"`. -/
def listenerKey (stackName : String) : String := "ALBListener" ++ stackName

/-- The resource key `f"TG{version}{stack_name}"`. -/
def tgKey (stackName version : String) : String := "TG" ++ version ++ stackName

/-- The `params` dict of `plan`. -/
def planParams : List (String × ParamDecl) :=
  [("SecurityGroups", ⟨"List of security groups", "CommaDelimitedList"⟩),
   ("Subnets", ⟨"List of subnets that your instances reside in", "CommaDelimitedList"⟩),
   ("VPCID", ⟨"VPC ID of all of the instances", "String"⟩)]

/-- The load-balancer resource `resources[f"ALB{stack_name}"]`. -/
def albResource (stackName : String) : Resource :=
  .loadBalancer
    { ipAddressType := "ipv4"
      name := albKey stackName
      securityGroupsRef := "SecurityGroups"
      subnetsRef := "Subnets"
      albType := "application" }

/-- The listener resource `resources[f"ALBListener{stack_name}"]`, whose
default forward action pairs each version's target-group reference with its
declared weight, in input order. -/
def listenerResource (stackName : String) (versions : List VersionSpec) : Resource :=
  .listener
    { loadBalancerRef := albKey stackName
      port := 80
      protocol := "HTTP"
      defaultActions :=
        [⟨"forward",
          versions.map fun v => ⟨tgKey stackName v.version, v.weight⟩⟩] }

/-- The target-group resource `resources[f"TG{version}{stack_name}"]` for
one version: one `Target` per discovered instance id, on port 8000. -/
def tgResource (region stackName : String) (d : Disc) (v : VersionSpec) : Resource :=
  .targetGroup
    { healthCheckIntervalSeconds := 5
      healthCheckTimeoutSeconds := 4
      healthyThresholdCount := 2
      healthCheckPath := "/healthcheck"
      name := "tg-" ++ v.version ++ "-" ++ stackName
      port := 8000
      protocol := "HTTP"
      protocolVersion := "HTTP1"
      vpcIdRef := "VPCID"
      targets := (d region v.clusters).map fun i => ⟨i, 8000⟩ }

/-- Embedding of `plan(region, stack_name, versions)`: build the
load-balancer resource, the weighted listener, and one target group per
version (calling the discovery function once per version), in that order,
into the `Resources` dict. -/
def plan (region stackName : String) (versions : List VersionSpec) (d : Disc) :
    CfTemplate :=
  let r₁ := dictInsert (albKey stackName) (albResource stackName) []
  let r₂ := dictInsert (listenerKey stackName) (listenerResource stackName versions) r₁
  let r₃ := versions.foldl
    (fun r v => dictInsert (tgKey stackName v.version) (tgResource region stackName d v) r) r₂
  { parameters := planParams, resources := r₃ }

/-- Instrumented `plan`: additionally records, in order, the
`(region, clusters)` argument of every `find_instances` call the planner
makes (one per version entry, inside the target-group loop). -/
def planWithTrace (region stackName : String) (versions : List VersionSpec) (d : Disc) :
    CfTemplate × List (String × List String) :=
  let r₁ := dictInsert (albKey stackName) (albResource stackName) []
  let r₂ := dictInsert (listenerKey stackName) (listenerResource stackName versions) r₁
  let r₃ := versions.foldl
    (fun acc v =>
      (dictInsert (tgKey stackName v.version) (tgResource region stackName d v) acc.1,
       acc.2 ++ [(region, v.clusters)]))
    (r₂, [])
  ({ parameters := planParams, resources := r₃.1 }, r₃.2)

/-- Errors raised by the boto3 CloudFormation client, as the reconciler can
observe them: the distinguished `AlreadyExistsException` of `create_stack`,
a does-not-exist validation error, and any other client error. -/
inductive AwsErr where
  | alreadyExists
  | notFound (message : String)
  | other (message : String)
deriving DecidableEq

/-- A `WaiterConfig` dict: `delay = none` models the empty dict `{}`
(leaving the waiter's built-in default in force), `delay = some n` models
`{"Delay": n}`. -/
structure WaiterConfig where
  delay : Option Nat
deriving DecidableEq

/-- Default poll delay, in seconds, of botocore's built-in CloudFormation
stack waiters (`stack_create_complete`, `stack_update_complete`,
`stack_delete_complete`).  This constant lives in the botocore waiter data,
outside this repository; an empty `WaiterConfig` — as passed on the create
path of `apply` — leaves it in force. -/
def botocoreDefaultDelay : Nat := 30

/-- Poll delay actually used by `waiter.wait` for a given `WaiterConfig`:
the explicit `Delay` if one was supplied, the botocore default otherwise. -/
def effectiveDelay (c : WaiterConfig) : Nat :=
  c.delay.getD botocoreDefaultDelay

/-- One observable step of the reconciler: a boto3 client construction, an
AWS API call, or a line printed to the operator. -/
inductive Action where
  | createClient (service region : String)
  | createStackCall (stackName templateBody : String) (parameters : List (String × String))
  | updateStackCall (stackName templateBody : String) (parameters : List (String × String))
  | describeStacksCall (stackName : String)
  | waitCall (waiterName stackName : String) (config : WaiterConfig)
  | describeStackResourceCall (stackName logicalId : String)
  | describeLoadBalancersCall (arns : List String)
  | deleteStackCall (stackName : String)
  | printLine (line : String)
deriving DecidableEq

/-- Oracle of remote control-plane responses for one reconciler run: the
outcome of each fallible call and the values returned by the describe
calls.  It stands for the state of the remote account during the run. -/
structure ControlPlane where
  createStackResult : Except AwsErr Unit
  updateStackResult : Except AwsErr Unit
  stackIdOf : String
  waitResult : Except AwsErr Unit
  physicalResourceId : String
  dnsName : String
  deleteResult : Except AwsErr Unit
  deleteWaitResult : Except AwsErr Unit

/-- Tail of `apply` shared by the create and update paths: describe the
stack, print its console URL, wait with the path's waiter and
`WaiterConfig`, then resolve the ALB's physical id, query its DNS name
from the elbv2 client pinned to region `"us-west-2"`, and print the name.
The Python function body ends without a `return` statement, so the run's
value on success is `none` (Python `None`). -/
def applyTail (region stackName waiterName : String) (waiterConfig : WaiterConfig)
    (trace : List Action) (cp : ControlPlane) :
    List Action × Except AwsErr (Option String) :=
  let url := "https://" ++ region ++
    ".console.aws.amazon.com/cloudformation/home?region=" ++ region ++
    "#stacks/stackinfo?stackId=" ++ cp.stackIdOf
  let t₁ := trace ++
    [Action.describeStacksCall stackName,
     Action.printLine ("View your stack at " ++ url ++ ".\n"),
     Action.waitCall waiterName stackName waiterConfig]
  match cp.waitResult with
  | .error e => (t₁, .error e)
  | .ok () =>
    let t₂ := t₁ ++
      [Action.printLine "Finished deploying the cloudformation template.\n",
       Action.describeStackResourceCall stackName (albKey stackName),
       Action.createClient "elbv2" "us-west-2",
       Action.describeLoadBalancersCall [cp.physicalResourceId],
       Action.printLine ("The DNS name of your ALB is " ++ cp.dnsName ++ ".")]
    (t₂, .ok none)

/-- Embedding of `apply(region, stack_name, cf_template, parameters)`:
attempt `create_stack`; on the distinguished `AlreadyExistsException`
switch to `update_stack` with the same template and parameters; on any
other exception propagate it.  The create path waits with
`stack_create_complete` and an empty `WaiterConfig`; the update path waits
with `stack_update_complete` and a `WaiterConfig` carrying Delay 2. -/
def apply (region stackName cfTemplate : String)
    (parameters : List (String × String)) (cp : ControlPlane) :
    List Action × Except AwsErr (Option String) :=
  let t₀ := [Action.printLine "Applying the cloudformation template ...\n",
             Action.createClient "cloudformation" region,
             Action.createStackCall stackName cfTemplate parameters]
  match cp.createStackResult with
  | .ok () =>
      applyTail region stackName "stack_create_complete" ⟨none⟩ t₀ cp
  | .error .alreadyExists =>
      let t₁ := t₀ ++ [Action.updateStackCall stackName cfTemplate parameters]
      match cp.updateStackResult with
      | .ok () => applyTail region stackName "stack_update_complete" ⟨some 2⟩ t₁ cp
      | .error e => (t₁, .error e)
  | .error e => (t₀, .error e)

/-- Embedding of `delete(region, stack_name)`: submit `delete_stack`, then
wait on `stack_delete_complete` with a `WaiterConfig` carrying Delay 1.
There is no exception handling: any error of either call propagates to the
caller unchanged. -/
def delete (region stackName : String) (cp : ControlPlane) :
    List Action × Except AwsErr Unit :=
  let t₀ := [Action.printLine ("Deleting cloudformation stack " ++ stackName ++ " ..."),
             Action.createClient "cloudformation" region,
             Action.deleteStackCall stackName]
  match cp.deleteResult with
  | .error e => (t₀, .error e)
  | .ok () =>
    let t₁ := t₀ ++ [Action.waitCall "stack_delete_complete" stackName ⟨some 1⟩]
    match cp.deleteWaitResult with
    | .error e => (t₁, .error e)
    | .ok () =>
        (t₁ ++ [Action.printLine ("Deleted cloudformation stack " ++ stackName ++ ".")],
         .ok ())

/-- The `(waiterName, WaiterConfig)` pairs of the wait calls of a trace,
in order. -/
def waitCallsOf (tr : List Action) : List (String × WaiterConfig) :=
  tr.filterMap fun a =>
    match a with
    | .waitCall w _ c => some (w, c)
    | _ => none

/-- Whether a resource is a target group. -/
def Resource.isTargetGroup : Resource → Bool
  | .targetGroup _ => true
  | _ => false

/-- The input-independent constants of the generated template: the listener
forwards HTTP on port 80; every target group carries health-check path
`/healthcheck`, interval 5, timeout 4, healthy threshold 2, and port 8000;
every target is registered on port 8000. -/
def resourceInvariant : Resource → Prop
  | .loadBalancer _ => True
  | .listener l =>
      l.port = 80 ∧ l.protocol = "HTTP" ∧
      ∀ a ∈ l.defaultActions, a.actionType = "forward"
  | .targetGroup t =>
      t.healthCheckPath = "/healthcheck" ∧
      t.healthCheckIntervalSeconds = 5 ∧
      t.healthCheckTimeoutSeconds = 4 ∧
      t.healthyThresholdCount = 2 ∧
      t.port = 8000 ∧
      ∀ x ∈ t.targets, x.port = 8000

instance {ε α : Type} [DecidableEq ε] [DecidableEq α] : DecidableEq (Except ε α) :=
  fun x y =>
    match x, y with
    | .ok a, .ok b =>
        if h : a = b then isTrue (by rw [h])
        else isFalse (by intro hc; cases hc; exact h rfl)
    | .ok _, .error _ => isFalse (by intro hc; cases hc)
    | .error _, .ok _ => isFalse (by intro hc; cases hc)
    | .error e, .error f =>
        if h : e = f then isTrue (by rw [h])
        else isFalse (by intro hc; cases hc; exact h rfl)

/-- A sample discovery function used in concrete runs: two instances behind
cluster list `["c1"]`, one behind anything else. -/
def sampleDisc : Disc := fun _ clusters =>
  if clusters = ["c1"] then ["i-aaa", "i-bbb"] else ["i-ccc"]

/-- A sample discovery function extensionally equal to `sampleDisc` but
syntactically distinct, for exercising determinism. -/
def sampleDisc2 : Disc := fun region clusters => sampleDisc region clusters

/-- A sample discovery function that finds no running instances at all. -/
def emptyDisc : Disc := fun _ _ => []

/-- A sample version list with two distinct labels: the end-to-end scenario
of the spec. -/
def sampleVersions : List VersionSpec :=
  [⟨"v1", 90, ["c1"]⟩, ⟨"v2", 10, ["c2"]⟩]

/-- A sample control plane on which every call succeeds. -/
def cpAllOk : ControlPlane :=
  { createStackResult := .ok ()
    updateStackResult := .ok ()
    stackIdOf := "stack-1"
    waitResult := .ok ()
    physicalResourceId := "arn-alb-1"
    dnsName := "alb-1.us-west-2.elb.amazonaws.com"
    deleteResult := .ok ()
    deleteWaitResult := .ok () }

/-- A sample control plane whose creation attempt reports that the stack
already exists; every other call succeeds. -/
def cpExists : ControlPlane :=
  { cpAllOk with createStackResult := .error .alreadyExists }

/-- A sample control plane whose deletion call reports that the stack does
not exist. -/
def cpGone : ControlPlane :=
  { cpAllOk with
      deleteResult := .error (.notFound "Stack with id prod does not exist") }

/-! ### Helper lemmas on resource keys and the dict model -/

theorem tgKey_injective (s : String) : Function.Injective (tgKey s) := by
  intro a b h
  have h' := congrArg String.data h
  simp only [tgKey, String.data_append] at h'
  have h₂ := List.append_cancel_right h'
  have h₃ := List.append_cancel_left h₂
  exact String.ext h₃

theorem tgKey_ne_albKey (s t a : String) : tgKey s a ≠ albKey t := by
  intro h
  have h' := congrArg String.data h
  simp only [tgKey, albKey, String.data_append] at h'
  simp at h'

theorem tgKey_ne_listenerKey (s t a : String) : tgKey s a ≠ listenerKey t := by
  intro h
  have h' := congrArg String.data h
  simp only [tgKey, listenerKey, String.data_append] at h'
  simp at h'

theorem albKey_ne_listenerKey (s : String) : albKey s ≠ listenerKey s := by
  intro h
  have h' := congrArg (fun x => x.data.length) h
  simp only [albKey, listenerKey, String.data_append, List.length_append,
    List.length_cons, List.length_nil] at h'
  omega

theorem dictInsert_of_not_mem {k : String} {l : List (String × Resource)}
    (h : k ∉ dictKeys l) (v : Resource) : dictInsert k v l = l ++ [(k, v)] := by
  induction l with
  | nil => rfl
  | cons p rest ih =>
      rcases p with ⟨k₀, v₀⟩
      simp only [dictKeys, List.map_cons, List.mem_cons] at h
      push_neg at h
      simp only [dictInsert]
      rw [if_neg fun hc => h.1 hc.symm, ih h.2]
      rfl

theorem mem_dictInsert {p : String × Resource} {k : String} {v : Resource}
    {l : List (String × Resource)} (h : p ∈ dictInsert k v l) :
    p = (k, v) ∨ p ∈ l := by
  induction l with
  | nil => simpa [dictInsert] using h
  | cons q rest ih =>
      by_cases hk : q.1 = k
      · rcases p with ⟨a, b⟩
        rcases q with ⟨qk, qv⟩
        simp only [dictInsert] at h
        simp only at hk
        rw [if_pos hk] at h
        rcases List.mem_cons.1 h with h' | h'
        · exact Or.inl h'
        · exact Or.inr (List.mem_cons_of_mem _ h')
      · rcases q with ⟨qk, qv⟩
        simp only [dictInsert] at h
        simp only at hk
        rw [if_neg hk] at h
        rcases List.mem_cons.1 h with h' | h'
        · exact Or.inr (h' ▸ List.mem_cons_self _ _)
        · rcases ih h' with h'' | h''
          · exact Or.inl h''
          · exact Or.inr (List.mem_cons_of_mem _ h'')

theorem dictKeys_append (l l' : List (String × Resource)) :
    dictKeys (l ++ l') = dictKeys l ++ dictKeys l' := by
  simp [dictKeys]

/-- The target-group loop of `plan`, run from any accumulator whose keys
avoid the (pairwise distinct) target-group keys, appends one entry per
version, in input order. -/
theorem tgFold_eq (region s : String) (d : Disc) (vs : List VersionSpec)
    (acc : List (String × Resource))
    (hn : (vs.map fun v => tgKey s v.version).Nodup)
    (hd : ∀ v ∈ vs, tgKey s v.version ∉ dictKeys acc) :
    vs.foldl
      (fun r v => dictInsert (tgKey s v.version) (tgResource region s d v) r) acc
      = acc ++ vs.map fun v => (tgKey s v.version, tgResource region s d v) := by
  induction vs generalizing acc with
  | nil => simp
  | cons v rest ih =>
      simp only [List.map_cons, List.nodup_cons] at hn
      have hins : dictInsert (tgKey s v.version) (tgResource region s d v) acc
          = acc ++ [(tgKey s v.version, tgResource region s d v)] :=
        dictInsert_of_not_mem (hd v (List.mem_cons_self _ _)) _
      have hd' : ∀ w ∈ rest, tgKey s w.version ∉
          dictKeys (acc ++ [(tgKey s v.version, tgResource region s d v)]) := by
        intro w hw
        rw [dictKeys_append]
        simp only [List.mem_append]
        push_neg
        refine ⟨hd w (List.mem_cons_of_mem _ hw), ?_⟩
        simp only [dictKeys, List.map_cons, List.map_nil, List.mem_singleton]
        intro hcontra
        exact hn.1 (hcontra ▸ List.mem_map_of_mem (fun w => tgKey s w.version) hw)
      simp only [List.foldl_cons, hins]
      rw [ih _ hn.2 hd']
      simp

/-- Full characterization of the `Resources` dict produced by `plan` when
the version labels are pairwise distinct: the load balancer, then the
listener, then one target group per version in input order. -/
theorem plan_resources_eq (region s : String) (vs : List VersionSpec) (d : Disc)
    (h : (vs.map VersionSpec.version).Nodup) :
    (plan region s vs d).resources
      = (albKey s, albResource s) :: (listenerKey s, listenerResource s vs)
        :: vs.map fun v => (tgKey s v.version, tgResource region s d v) := by
  have hr₂ : dictInsert (listenerKey s) (listenerResource s vs)
      (dictInsert (albKey s) (albResource s) [])
      = [(albKey s, albResource s), (listenerKey s, listenerResource s vs)] := by
    simp [dictInsert, (albKey_ne_listenerKey s).symm, albKey_ne_listenerKey s]
  have hn : (vs.map fun v => tgKey s v.version).Nodup := by
    have : (vs.map fun v => tgKey s v.version)
        = (vs.map VersionSpec.version).map (tgKey s) := by
      simp [List.map_map, Function.comp]
    rw [this]
    exact h.map (tgKey_injective s)
  have hd : ∀ v ∈ vs, tgKey s v.version ∉
      dictKeys [(albKey s, albResource s), (listenerKey s, listenerResource s vs)] := by
    intro v _
    simp [dictKeys, tgKey_ne_albKey s s v.version, tgKey_ne_listenerKey s s v.version]
  show (let r₁ := dictInsert (albKey s) (albResource s) []
        let r₂ := dictInsert (listenerKey s) (listenerResource s vs) r₁
        let r₃ := vs.foldl
          (fun r v => dictInsert (tgKey s v.version) (tgResource region s d v) r) r₂
        ({ parameters := planParams, resources := r₃ } : CfTemplate)).resources = _
  simp only [hr₂]
  rw [tgFold_eq region s d vs _ hn hd]
  simp

/-- Threading an output list through a left fold: the first component folds
as before and the second collects one element per input, in order. -/
theorem foldl_pair {α β γ : Type} (f : β → α → β) (g : α → γ) (l : List α)
    (b : β) (c : List γ) :
    l.foldl (fun acc a => (f acc.1 a, acc.2 ++ [g a])) (b, c)
      = (l.foldl f b, c ++ l.map g) := by
  induction l generalizing b c with
  | nil => simp
  | cons a rest ih => simp [ih]

theorem planWithTrace_fst (region s : String) (vs : List VersionSpec) (d : Disc) :
    (planWithTrace region s vs d).1 = plan region s vs d := by
  dsimp only [planWithTrace, plan]
  rw [foldl_pair
    (fun r v => dictInsert (tgKey s v.version) (tgResource region s d v) r)
    (fun v => (region, v.clusters)) vs _ []]

theorem planWithTrace_snd (region s : String) (vs : List VersionSpec) (d : Disc) :
    (planWithTrace region s vs d).2 = vs.map fun v => (region, v.clusters) := by
  dsimp only [planWithTrace]
  rw [foldl_pair
    (fun r v => dictInsert (tgKey s v.version) (tgResource region s d v) r)
    (fun v => (region, v.clusters)) vs _ []]
  rfl

theorem dictFind_tgMap (region s : String) (d : Disc) (vs : List VersionSpec)
    (v : VersionSpec) (hv : v ∈ vs)
    (hn : (vs.map fun w => tgKey s w.version).Nodup) :
    dictFind (tgKey s v.version)
      (vs.map fun w => (tgKey s w.version, tgResource region s d w))
      = some (tgResource region s d v) := by
  induction vs with
  | nil => cases hv
  | cons w rest ih =>
      simp only [List.map_cons, List.nodup_cons] at hn
      rcases List.mem_cons.1 hv with rfl | hv'
      · simp [dictFind]
      · have hne : tgKey s w.version ≠ tgKey s v.version := by
          intro hc
          exact hn.1 (hc ▸ List.mem_map_of_mem (fun w => tgKey s w.version) hv')
        simp only [List.map_cons, dictFind, if_neg hne]
        exact ih hv' hn.2

theorem tgKeys_nodup (s : String) (vs : List VersionSpec)
    (h : (vs.map VersionSpec.version).Nodup) :
    (vs.map fun v => tgKey s v.version).Nodup := by
  have : (vs.map fun v => tgKey s v.version)
      = (vs.map VersionSpec.version).map (tgKey s) := by
    simp [List.map_map, Function.comp]
  rw [this]
  exact h.map (tgKey_injective s)

/-- Lookup of a version's target group in the planned template, for inputs
with pairwise distinct labels. -/
theorem plan_dictFind_tg (region s : String) (vs : List VersionSpec) (d : Disc)
    (v : VersionSpec) (h : (vs.map VersionSpec.version).Nodup) (hv : v ∈ vs) :
    dictFind (tgKey s v.version) (plan region s vs d).resources
      = some (tgResource region s d v) := by
  rw [plan_resources_eq region s vs d h]
  simp only [dictFind,
    if_neg (Ne.symm (tgKey_ne_albKey s s v.version)),
    if_neg (Ne.symm (tgKey_ne_listenerKey s s v.version))]
  exact dictFind_tgMap region s d vs v hv (tgKeys_nodup s vs h)

/-- The target-group loop preserves the fixed-constants invariant of the
accumulated resources, duplicate labels or not. -/
theorem plan_fold_invariant (region s : String) (d : Disc) (vs : List VersionSpec)
    (acc : List (String × Resource))
    (hacc : ∀ p ∈ acc, resourceInvariant p.2) :
    ∀ p ∈ vs.foldl
      (fun r v => dictInsert (tgKey s v.version) (tgResource region s d v) r) acc,
      resourceInvariant p.2 := by
  induction vs generalizing acc with
  | nil => simpa using hacc
  | cons v rest ih =>
      intro p hp
      simp only [List.foldl_cons] at hp
      refine ih _ ?_ p hp
      intro q hq
      rcases mem_dictInsert hq with rfl | hq'
      · simp only [resourceInvariant, tgResource]
        simp
      · exact hacc q hq'

/-! ### Helper lemmas on the reconciler traces -/

theorem applyTail_wait_ok (region s w : String) (c : WaiterConfig)
    (tr : List Action) (cp : ControlPlane) (h : cp.waitResult = .ok ()) :
    applyTail region s w c tr cp
      = (tr ++
         [Action.describeStacksCall s,
          Action.printLine ("View your stack at " ++
            ("https://" ++ region ++
              ".console.aws.amazon.com/cloudformation/home?region=" ++ region ++
              "#stacks/stackinfo?stackId=" ++ cp.stackIdOf) ++ ".\n"),
          Action.waitCall w s c,
          Action.printLine "Finished deploying the cloudformation template.\n",
          Action.describeStackResourceCall s (albKey s),
          Action.createClient "elbv2" "us-west-2",
          Action.describeLoadBalancersCall [cp.physicalResourceId],
          Action.printLine ("The DNS name of your ALB is " ++ cp.dnsName ++ ".")],
        .ok none) := by
  simp [applyTail, h]

theorem applyTail_wait_error (region s w : String) (c : WaiterConfig)
    (tr : List Action) (cp : ControlPlane) (e : AwsErr)
    (h : cp.waitResult = .error e) :
    applyTail region s w c tr cp
      = (tr ++
         [Action.describeStacksCall s,
          Action.printLine ("View your stack at " ++
            ("https://" ++ region ++
              ".console.aws.amazon.com/cloudformation/home?region=" ++ region ++
              "#stacks/stackinfo?stackId=" ++ cp.stackIdOf) ++ ".\n"),
          Action.waitCall w s c],
        .error e) := by
  simp [applyTail, h]

theorem apply_create_ok (region s t : String) (p : List (String × String))
    (cp : ControlPlane) (h : cp.createStackResult = .ok ()) :
    apply region s t p cp
      = applyTail region s "stack_create_complete" ⟨none⟩
          [Action.printLine "Applying the cloudformation template ...\n",
           Action.createClient "cloudformation" region,
           Action.createStackCall s t p] cp := by
  simp [apply, h]

theorem apply_already_exists (region s t : String) (p : List (String × String))
    (cp : ControlPlane) (h₁ : cp.createStackResult = .error .alreadyExists)
    (h₂ : cp.updateStackResult = .ok ()) :
    apply region s t p cp
      = applyTail region s "stack_update_complete" ⟨some 2⟩
          [Action.printLine "Applying the cloudformation template ...\n",
           Action.createClient "cloudformation" region,
           Action.createStackCall s t p,
           Action.updateStackCall s t p] cp := by
  simp [apply, h₁, h₂]

/-! ### Claim theorems -/

/-- C1: for every input sequence of VersionSpecs with pairwise distinct
labels, `plan` produces exactly one target pool per VersionSpec — the
target-group entries of the `Resources` dict are exactly the per-version
pools, in input order — the listener's pool-weight pairs are in bijection
with the input VersionSpecs, in input order, each pairing the reference to
that version's pool with its declared weight unchanged (no
renormalization), and looking up a version's pool key yields that
version's pool. -/
theorem plan_unique_labels_bijection (region s : String) (vs : List VersionSpec)
    (d : Disc) (h : (vs.map VersionSpec.version).Nodup) :
    ((plan region s vs d).resources.filter fun p => p.2.isTargetGroup)
        = vs.map (fun v => (tgKey s v.version, tgResource region s d v))
  ∧ dictFind (listenerKey s) (plan region s vs d).resources
        = some (.listener
            { loadBalancerRef := albKey s
              port := 80
              protocol := "HTTP"
              defaultActions :=
                [⟨"forward", vs.map fun v => ⟨tgKey s v.version, v.weight⟩⟩] })
  ∧ ∀ v ∈ vs, dictFind (tgKey s v.version) (plan region s vs d).resources
        = some (tgResource region s d v) := by
  have hres := plan_resources_eq region s vs d h
  refine ⟨?_, ?_, fun v hv => plan_dictFind_tg region s vs d v h hv⟩
  · rw [hres]
    simp only [List.filter_cons]
    rw [if_neg (by simp [albResource, Resource.isTargetGroup]),
      if_neg (by simp [listenerResource, Resource.isTargetGroup])]
    rw [List.filter_eq_self]
    intro a ha
    simp only [List.mem_map] at ha
    obtain ⟨v, -, rfl⟩ := ha
    rfl
  · rw [hres]
    simp only [dictFind, if_neg (albKey_ne_listenerKey s), if_pos rfl]
    rfl

/-- Witness for C1 at the end-to-end scenario of the spec. -/
theorem plan_unique_labels_bijection_witness :
    ((sampleVersions.map VersionSpec.version).Nodup)
  ∧ (((plan "us-west-2" "prod" sampleVersions sampleDisc).resources.filter
        fun p => p.2.isTargetGroup)
        = sampleVersions.map
            (fun v => (tgKey "prod" v.version, tgResource "us-west-2" "prod" sampleDisc v))
     ∧ dictFind (listenerKey "prod")
          (plan "us-west-2" "prod" sampleVersions sampleDisc).resources
        = some (.listener
            { loadBalancerRef := albKey "prod"
              port := 80
              protocol := "HTTP"
              defaultActions :=
                [⟨"forward",
                  sampleVersions.map fun v => ⟨tgKey "prod" v.version, v.weight⟩⟩] })
     ∧ ∀ v ∈ sampleVersions,
          dictFind (tgKey "prod" v.version)
            (plan "us-west-2" "prod" sampleVersions sampleDisc).resources
            = some (tgResource "us-west-2" "prod" sampleDisc v)) :=
  ⟨by decide,
   plan_unique_labels_bijection "us-west-2" "prod" sampleVersions sampleDisc (by decide)⟩

/-- C2 counterexample: on a concrete input whose two entries share the
label `v1`, `plan` does not fail at all — it performs one discovery call
per entry (two calls, not zero) and returns a template whose `Resources`
dict holds the load balancer, the listener, and a single target group
under the duplicated key. -/
theorem plan_duplicate_labels_no_error :
    (planWithTrace "us-west-2" "prod"
        [⟨"v1", 90, ["c1"]⟩, ⟨"v1", 10, ["c2"]⟩] sampleDisc).2
      = [("us-west-2", ["c1"]), ("us-west-2", ["c2"])]
  ∧ dictKeys (planWithTrace "us-west-2" "prod"
        [⟨"v1", 90, ["c1"]⟩, ⟨"v1", 10, ["c2"]⟩] sampleDisc).1.resources
      = ["ALBprod", "ALBListenerprod", "TGv1prod"] := by
  constructor
  · rw [planWithTrace_snd]
    rfl
  · decide

/-- C2 (amended): `plan` performs no duplicate-label validation.  On any
input it makes one discovery call per version entry, duplicates included;
with two entries sharing a label it still succeeds, producing a single
target group under the shared key that holds the later entry's pool (the
Python dict overwrite), while the listener keeps one weight entry per
input entry. -/
theorem plan_duplicate_labels_overwrite (region s : String) (vs : List VersionSpec)
    (d : Disc) (v₁ v₂ : VersionSpec) (hlab : v₁.version = v₂.version) :
    (planWithTrace region s vs d).2 = vs.map (fun v => (region, v.clusters))
  ∧ (plan region s [v₁, v₂] d).resources
      = [(albKey s, albResource s),
         (listenerKey s, listenerResource s [v₁, v₂]),
         (tgKey s v₁.version, tgResource region s d v₂)] := by
  refine ⟨planWithTrace_snd region s vs d, ?_⟩
  have e₂ : tgKey s v₂.version = tgKey s v₁.version := by rw [hlab]
  dsimp only [plan]
  simp only [List.foldl_cons, List.foldl_nil]
  simp [dictInsert, albKey_ne_listenerKey s,
    Ne.symm (tgKey_ne_albKey s s v₁.version),
    Ne.symm (tgKey_ne_listenerKey s s v₁.version),
    Ne.symm (tgKey_ne_albKey s s v₂.version),
    Ne.symm (tgKey_ne_listenerKey s s v₂.version), e₂]

/-- Witness for the amended C2 at a concrete duplicate-label input. -/
theorem plan_duplicate_labels_overwrite_witness :
    ((⟨"v1", 90, ["c1"]⟩ : VersionSpec).version
        = (⟨"v1", 10, ["c2"]⟩ : VersionSpec).version)
  ∧ ((planWithTrace "us-west-2" "prod"
        [⟨"v1", 90, ["c1"]⟩, ⟨"v1", 10, ["c2"]⟩] sampleDisc).2
      = [⟨"v1", 90, ["c1"]⟩, (⟨"v1", 10, ["c2"]⟩ : VersionSpec)].map
          (fun v => ("us-west-2", v.clusters))
     ∧ (plan "us-west-2" "prod"
          [⟨"v1", 90, ["c1"]⟩, ⟨"v1", 10, ["c2"]⟩] sampleDisc).resources
        = [(albKey "prod", albResource "prod"),
           (listenerKey "prod",
            listenerResource "prod" [⟨"v1", 90, ["c1"]⟩, ⟨"v1", 10, ["c2"]⟩]),
           (tgKey "prod" "v1",
            tgResource "us-west-2" "prod" sampleDisc ⟨"v1", 10, ["c2"]⟩)]) :=
  ⟨rfl,
   plan_duplicate_labels_overwrite "us-west-2" "prod"
     [⟨"v1", 90, ["c1"]⟩, ⟨"v1", 10, ["c2"]⟩] sampleDisc
     ⟨"v1", 90, ["c1"]⟩ ⟨"v1", 10, ["c2"]⟩ rfl⟩

/-- C6: a VersionSpec whose clusters resolve to zero instances still yields
a target pool, with an empty target sequence — the zero-instance case is
not an error in the planner. -/
theorem plan_empty_discovery_empty_pool (region s : String) (vs : List VersionSpec)
    (d : Disc) (v : VersionSpec) (h : (vs.map VersionSpec.version).Nodup)
    (hv : v ∈ vs) (hzero : d region v.clusters = []) :
    dictFind (tgKey s v.version) (plan region s vs d).resources
      = some (.targetGroup
          { healthCheckIntervalSeconds := 5
            healthCheckTimeoutSeconds := 4
            healthyThresholdCount := 2
            healthCheckPath := "/healthcheck"
            name := "tg-" ++ v.version ++ "-" ++ s
            port := 8000
            protocol := "HTTP"
            protocolVersion := "HTTP1"
            vpcIdRef := "VPCID"
            targets := [] }) := by
  rw [plan_dictFind_tg region s vs d v h hv]
  simp [tgResource, hzero]

/-- Witness for C6: a discovery function that finds nothing still yields a
pool with an empty target list. -/
theorem plan_empty_discovery_empty_pool_witness :
    ((sampleVersions.map VersionSpec.version).Nodup
       ∧ (⟨"v1", 90, ["c1"]⟩ : VersionSpec) ∈ sampleVersions
       ∧ emptyDisc "us-west-2" (⟨"v1", 90, ["c1"]⟩ : VersionSpec).clusters = [])
  ∧ dictFind (tgKey "prod" "v1")
      (plan "us-west-2" "prod" sampleVersions emptyDisc).resources
      = some (.targetGroup
          { healthCheckIntervalSeconds := 5
            healthCheckTimeoutSeconds := 4
            healthyThresholdCount := 2
            healthCheckPath := "/healthcheck"
            name := "tg-" ++ "v1" ++ "-" ++ "prod"
            port := 8000
            protocol := "HTTP"
            protocolVersion := "HTTP1"
            vpcIdRef := "VPCID"
            targets := [] }) :=
  ⟨⟨by decide, by decide, rfl⟩,
   plan_empty_discovery_empty_pool "us-west-2" "prod" sampleVersions emptyDisc
     ⟨"v1", 90, ["c1"]⟩ (by decide) (by decide) rfl⟩

/-- C7: `plan` is deterministic for a fixed discovery result — two runs
with identical region, stack name and versions, against discovery
functions returning identical results everywhere, produce structurally
identical templates. -/
theorem plan_deterministic (region s : String) (vs : List VersionSpec)
    (d₁ d₂ : Disc) (h : ∀ r c, d₁ r c = d₂ r c) :
    plan region s vs d₁ = plan region s vs d₂ := by
  have hd : d₁ = d₂ := funext fun r => funext fun c => h r c
  rw [hd]

/-- Witness for C7: two syntactically distinct but extensionally equal
discovery functions give identical templates. -/
theorem plan_deterministic_witness :
    plan "us-west-2" "prod" sampleVersions sampleDisc
      = plan "us-west-2" "prod" sampleVersions sampleDisc2 :=
  plan_deterministic "us-west-2" "prod" sampleVersions sampleDisc sampleDisc2
    (fun _ _ => rfl)

/-- C10: every template produced by `plan`, for any input whatsoever,
satisfies the fixed-constants invariant: the listener forwards HTTP on
port 80, every target group carries health-check path `/healthcheck`,
interval 5, timeout 4, healthy threshold 2 and port 8000, and every
target is registered on backend port 8000. -/
theorem plan_fixed_constants (region s : String) (vs : List VersionSpec) (d : Disc) :
    ∀ p ∈ (plan region s vs d).resources, resourceInvariant p.2 := by
  intro p hp
  dsimp only [plan] at hp
  refine plan_fold_invariant region s d vs _ ?_ p hp
  intro q hq
  rcases mem_dictInsert hq with rfl | hq'
  · simp [resourceInvariant, listenerResource]
  · rcases mem_dictInsert hq' with rfl | hq''
    · simp [resourceInvariant, albResource]
    · cases hq''

/-- Witness for C10 at a concrete pool entry of the sample run. -/
theorem plan_fixed_constants_witness :
    ((tgKey "prod" "v1", tgResource "us-west-2" "prod" sampleDisc ⟨"v1", 90, ["c1"]⟩)
        ∈ (plan "us-west-2" "prod" sampleVersions sampleDisc).resources)
  ∧ resourceInvariant
      (tgKey "prod" "v1",
       tgResource "us-west-2" "prod" sampleDisc ⟨"v1", 90, ["c1"]⟩).2 :=
  ⟨by decide,
   plan_fixed_constants "us-west-2" "prod" sampleVersions sampleDisc
     (tgKey "prod" "v1", tgResource "us-west-2" "prod" sampleDisc ⟨"v1", 90, ["c1"]⟩)
     (by decide)⟩

/-- C3 counterexample: on a concrete pair of runs, the update path waits
with an explicit Delay of 2 seconds while the create path waits with the
botocore default of 30 seconds; the update path's poll delay is therefore
not longer than the create path's, contradicting the claim. -/
theorem update_delay_not_longer :
    waitCallsOf (apply "us-west-2" "prod" "tpl" [] cpExists).1
      = [("stack_update_complete", ⟨some 2⟩)]
  ∧ waitCallsOf (apply "us-west-2" "prod" "tpl" [] cpAllOk).1
      = [("stack_create_complete", ⟨none⟩)]
  ∧ ¬ effectiveDelay ⟨some 2⟩ > effectiveDelay ⟨none⟩ := by
  refine ⟨by decide, by decide, by decide⟩

/-- C3 (amended): the update path of `apply` configures a shorter poll
delay (an explicit 2 seconds) than the create path (which leaves the
botocore default of 30 seconds in force), so updates are polled more
aggressively than creations, not less. -/
theorem update_path_polls_faster (region s t : String) (p : List (String × String))
    (cp cp' : ControlPlane)
    (h₁ : cp.createStackResult = .ok ())
    (h₂ : cp'.createStackResult = .error .alreadyExists)
    (h₃ : cp'.updateStackResult = .ok ()) :
    waitCallsOf (apply region s t p cp).1 = [("stack_create_complete", ⟨none⟩)]
  ∧ waitCallsOf (apply region s t p cp').1 = [("stack_update_complete", ⟨some 2⟩)]
  ∧ effectiveDelay ⟨some 2⟩ < effectiveDelay ⟨none⟩ := by
  refine ⟨?_, ?_, by simp [effectiveDelay, botocoreDefaultDelay]⟩
  · rw [apply_create_ok region s t p cp h₁]
    cases hw : cp.waitResult with
    | ok u =>
        cases u
        rw [applyTail_wait_ok _ _ _ _ _ _ hw]
        simp [waitCallsOf]
    | error e =>
        rw [applyTail_wait_error _ _ _ _ _ _ _ hw]
        simp [waitCallsOf]
  · rw [apply_already_exists region s t p cp' h₂ h₃]
    cases hw : cp'.waitResult with
    | ok u =>
        cases u
        rw [applyTail_wait_ok _ _ _ _ _ _ hw]
        simp [waitCallsOf]
    | error e =>
        rw [applyTail_wait_error _ _ _ _ _ _ _ hw]
        simp [waitCallsOf]

/-- Witness for the amended C3 at the sample control planes. -/
theorem update_path_polls_faster_witness :
    (cpAllOk.createStackResult = .ok ()
       ∧ cpExists.createStackResult = .error .alreadyExists
       ∧ cpExists.updateStackResult = .ok ())
  ∧ (waitCallsOf (apply "us-west-2" "prod" "tpl" [] cpAllOk).1
        = [("stack_create_complete", ⟨none⟩)]
     ∧ waitCallsOf (apply "us-west-2" "prod" "tpl" [] cpExists).1
        = [("stack_update_complete", ⟨some 2⟩)]
     ∧ effectiveDelay ⟨some 2⟩ < effectiveDelay ⟨none⟩) :=
  ⟨⟨rfl, rfl, rfl⟩,
   update_path_polls_faster "us-west-2" "prod" "tpl" [] cpAllOk cpExists rfl rfl rfl⟩

/-- C4 counterexample: on a concrete successful run, `apply` returns
Python `None` — not the load balancer's DNS name, which it only prints. -/
theorem apply_returns_none_not_dns :
    (apply "us-east-1" "prod" "tpl" [] cpAllOk).2 = .ok none
  ∧ Action.printLine "The DNS name of your ALB is alb-1.us-west-2.elb.amazonaws.com."
      ∈ (apply "us-east-1" "prod" "tpl" [] cpAllOk).1
  ∧ (apply "us-east-1" "prod" "tpl" [] cpAllOk).2
      ≠ .ok (some "alb-1.us-west-2.elb.amazonaws.com") := by
  refine ⟨by decide, by decide, by decide⟩

/-- C4 (amended): on every successful `apply` run — creation succeeded, or
creation hit AlreadyExists and the update succeeded, and the wait
converged — `apply` resolves the load balancer resource, queries its DNS
name, and prints that name; its return value is `none` (Python `None`),
not the address. -/
theorem apply_prints_dns_returns_none (region s t : String)
    (p : List (String × String)) (cp : ControlPlane)
    (h₁ : cp.createStackResult = .ok ()
          ∨ (cp.createStackResult = .error .alreadyExists
             ∧ cp.updateStackResult = .ok ()))
    (h₂ : cp.waitResult = .ok ()) :
    (apply region s t p cp).2 = .ok none
  ∧ Action.describeStackResourceCall s (albKey s) ∈ (apply region s t p cp).1
  ∧ Action.describeLoadBalancersCall [cp.physicalResourceId] ∈ (apply region s t p cp).1
  ∧ Action.printLine ("The DNS name of your ALB is " ++ cp.dnsName ++ ".")
      ∈ (apply region s t p cp).1 := by
  rcases h₁ with h₁ | ⟨h₁, h₁'⟩
  · rw [apply_create_ok region s t p cp h₁, applyTail_wait_ok _ _ _ _ _ _ h₂]
    refine ⟨rfl, by simp, by simp, by simp⟩
  · rw [apply_already_exists region s t p cp h₁ h₁', applyTail_wait_ok _ _ _ _ _ _ h₂]
    refine ⟨rfl, by simp, by simp, by simp⟩

/-- Witness for the amended C4 at the all-success sample control plane. -/
theorem apply_prints_dns_returns_none_witness :
    (cpAllOk.createStackResult = .ok ()
       ∨ (cpAllOk.createStackResult = .error .alreadyExists
          ∧ cpAllOk.updateStackResult = .ok ()))
  ∧ cpAllOk.waitResult = .ok ()
  ∧ ((apply "us-west-2" "prod" "tpl" [] cpAllOk).2 = .ok none
     ∧ Action.describeStackResourceCall "prod" (albKey "prod")
         ∈ (apply "us-west-2" "prod" "tpl" [] cpAllOk).1
     ∧ Action.describeLoadBalancersCall [cpAllOk.physicalResourceId]
         ∈ (apply "us-west-2" "prod" "tpl" [] cpAllOk).1
     ∧ Action.printLine ("The DNS name of your ALB is " ++ cpAllOk.dnsName ++ ".")
         ∈ (apply "us-west-2" "prod" "tpl" [] cpAllOk).1) :=
  ⟨Or.inl rfl, rfl,
   apply_prints_dns_returns_none "us-west-2" "prod" "tpl" [] cpAllOk (Or.inl rfl) rfl⟩

/-- C5: `apply` always attempts creation first; the update call occurs in
a run exactly when the creation attempt reported AlreadyExists; and when
it does and the update and wait succeed, the run succeeds — the
AlreadyExists condition is not surfaced to the caller. -/
theorem apply_create_then_update_fallback (region s t : String)
    (p : List (String × String)) (cp : ControlPlane) :
    Action.createStackCall s t p ∈ (apply region s t p cp).1
  ∧ (Action.updateStackCall s t p ∈ (apply region s t p cp).1
      ↔ cp.createStackResult = .error .alreadyExists)
  ∧ (cp.createStackResult = .error .alreadyExists →
      cp.updateStackResult = .ok () → cp.waitResult = .ok () →
      (apply region s t p cp).2 = .ok none) := by
  cases hcr : cp.createStackResult with
  | ok u =>
      cases u
      rw [apply_create_ok region s t p cp hcr]
      cases hw : cp.waitResult with
      | ok u' =>
          cases u'
          rw [applyTail_wait_ok _ _ _ _ _ _ hw]
          simp [hcr]
      | error e' =>
          rw [applyTail_wait_error _ _ _ _ _ _ _ hw]
          simp [hcr]
  | error e =>
      cases e with
      | alreadyExists =>
          cases hur : cp.updateStackResult with
          | ok u =>
              cases u
              rw [apply_already_exists region s t p cp hcr hur]
              cases hw : cp.waitResult with
              | ok u' =>
                  cases u'
                  rw [applyTail_wait_ok _ _ _ _ _ _ hw]
                  simp [hcr, hur, hw]
              | error e' =>
                  rw [applyTail_wait_error _ _ _ _ _ _ _ hw]
                  simp [hcr, hur, hw]
          | error e' =>
              simp [apply, hcr, hur]
      | notFound m => simp [apply, hcr]
      | other m => simp [apply, hcr]

/-- Witness for C5: on the already-exists sample control plane the update
call is present in the trace and the run succeeds. -/
theorem apply_create_then_update_fallback_witness :
    Action.updateStackCall "prod" "tpl" []
        ∈ (apply "us-west-2" "prod" "tpl" [] cpExists).1
  ∧ (apply "us-west-2" "prod" "tpl" [] cpExists).2 = .ok none :=
  ⟨(apply_create_then_update_fallback "us-west-2" "prod" "tpl" [] cpExists).2.1.mpr rfl,
   (apply_create_then_update_fallback "us-west-2" "prod" "tpl" [] cpExists).2.2
     rfl rfl rfl⟩

/-- C8: `delete` submits deletion of the named stack and then blocks on
the `stack_delete_complete` waiter with the short fixed poll Delay of 1
second; it contains no special-casing of a nonexistent stack, so any
error of the deletion call — a does-not-exist condition included — or of
the wait propagates to the caller unchanged. -/
theorem delete_submits_waits_propagates (region s : String) (cp : ControlPlane) :
    (cp.deleteResult = .ok () → cp.deleteWaitResult = .ok () →
      delete region s cp
        = ([Action.printLine ("Deleting cloudformation stack " ++ s ++ " ..."),
            Action.createClient "cloudformation" region,
            Action.deleteStackCall s,
            Action.waitCall "stack_delete_complete" s ⟨some 1⟩,
            Action.printLine ("Deleted cloudformation stack " ++ s ++ ".")],
           .ok ()))
  ∧ (∀ e, cp.deleteResult = .error e →
      delete region s cp
        = ([Action.printLine ("Deleting cloudformation stack " ++ s ++ " ..."),
            Action.createClient "cloudformation" region,
            Action.deleteStackCall s], .error e))
  ∧ (∀ e, cp.deleteResult = .ok () → cp.deleteWaitResult = .error e →
      delete region s cp
        = ([Action.printLine ("Deleting cloudformation stack " ++ s ++ " ..."),
            Action.createClient "cloudformation" region,
            Action.deleteStackCall s,
            Action.waitCall "stack_delete_complete" s ⟨some 1⟩], .error e)) := by
  refine ⟨fun h₁ h₂ => ?_, fun e he => ?_, fun e h₁ h₂ => ?_⟩ <;> simp [delete, *]

/-- Witness for C8: a successful deletion run and a does-not-exist
deletion run, with the error surfaced as-is. -/
theorem delete_submits_waits_propagates_witness :
    delete "us-west-2" "prod" cpAllOk
      = ([Action.printLine ("Deleting cloudformation stack " ++ "prod" ++ " ..."),
          Action.createClient "cloudformation" "us-west-2",
          Action.deleteStackCall "prod",
          Action.waitCall "stack_delete_complete" "prod" ⟨some 1⟩,
          Action.printLine ("Deleted cloudformation stack " ++ "prod" ++ ".")],
         .ok ())
  ∧ delete "us-west-2" "prod" cpGone
      = ([Action.printLine ("Deleting cloudformation stack " ++ "prod" ++ " ..."),
          Action.createClient "cloudformation" "us-west-2",
          Action.deleteStackCall "prod"],
         .error (.notFound "Stack with id prod does not exist")) :=
  ⟨(delete_submits_waits_propagates "us-west-2" "prod" cpAllOk).1 rfl rfl,
   (delete_submits_waits_propagates "us-west-2" "prod" cpGone).2.1
     (.notFound "Stack with id prod does not exist") rfl⟩

/-- C9: every boto3 client `apply` creates is either the CloudFormation
client in the caller-supplied region or the elbv2 client pinned to
`us-west-2`; and on a successful creation run, the DNS query — the
describe-load-balancers call — is issued immediately after constructing
the elbv2 client for the fixed region `us-west-2`, whatever the input
region. -/
theorem dns_query_region_pinned (region s t : String) (p : List (String × String))
    (cp : ControlPlane) :
    (∀ svc r, Action.createClient svc r ∈ (apply region s t p cp).1 →
      (svc = "cloudformation" ∧ r = region) ∨ (svc = "elbv2" ∧ r = "us-west-2"))
  ∧ (cp.createStackResult = .ok () → cp.waitResult = .ok () →
      [Action.createClient "elbv2" "us-west-2",
       Action.describeLoadBalancersCall [cp.physicalResourceId]]
        <:+: (apply region s t p cp).1) := by
  constructor
  · intro svc r hmem
    cases hcr : cp.createStackResult with
    | ok u =>
        cases u
        rw [apply_create_ok region s t p cp hcr] at hmem
        cases hw : cp.waitResult with
        | ok u' =>
            cases u'
            rw [applyTail_wait_ok _ _ _ _ _ _ hw] at hmem
            simp at hmem
            tauto
        | error e =>
            rw [applyTail_wait_error _ _ _ _ _ _ _ hw] at hmem
            simp at hmem
            tauto
    | error e =>
        cases e with
        | alreadyExists =>
            cases hur : cp.updateStackResult with
            | ok u =>
                cases u
                rw [apply_already_exists region s t p cp hcr hur] at hmem
                cases hw : cp.waitResult with
                | ok u' =>
                    cases u'
                    rw [applyTail_wait_ok _ _ _ _ _ _ hw] at hmem
                    simp at hmem
                    tauto
                | error e' =>
                    rw [applyTail_wait_error _ _ _ _ _ _ _ hw] at hmem
                    simp at hmem
                    tauto
            | error e' =>
                simp [apply, hcr, hur] at hmem
                tauto
        | notFound m =>
            simp [apply, hcr] at hmem
            tauto
        | other m =>
            simp [apply, hcr] at hmem
            tauto
  · intro h₁ h₂
    rw [apply_create_ok region s t p cp h₁, applyTail_wait_ok _ _ _ _ _ _ h₂]
    exact ⟨[Action.printLine "Applying the cloudformation template ...\n",
            Action.createClient "cloudformation" region,
            Action.createStackCall s t p,
            Action.describeStacksCall s,
            Action.printLine ("View your stack at " ++
              ("https://" ++ region ++
                ".console.aws.amazon.com/cloudformation/home?region=" ++ region ++
                "#stacks/stackinfo?stackId=" ++ cp.stackIdOf) ++ ".\n"),
            Action.waitCall "stack_create_complete" s ⟨none⟩,
            Action.printLine "Finished deploying the cloudformation template.\n",
            Action.describeStackResourceCall s (albKey s)],
          [Action.printLine ("The DNS name of your ALB is " ++ cp.dnsName ++ ".")],
          rfl⟩

/-- Witness for C9: with the caller-supplied region `eu-central-1`, the
DNS query still goes through an elbv2 client for `us-west-2`. -/
theorem dns_query_region_pinned_witness :
    ([Action.createClient "elbv2" "us-west-2",
      Action.describeLoadBalancersCall [cpAllOk.physicalResourceId]]
        <:+: (apply "eu-central-1" "prod" "tpl" [] cpAllOk).1)
  ∧ (("elbv2" = "cloudformation" ∧ "us-west-2" = "eu-central-1")
      ∨ ("elbv2" = "elbv2" ∧ "us-west-2" = "us-west-2")) :=
  ⟨(dns_query_region_pinned "eu-central-1" "prod" "tpl" [] cpAllOk).2 rfl rfl,
   (dns_query_region_pinned "eu-central-1" "prod" "tpl" [] cpAllOk).1
     "elbv2" "us-west-2" (by decide)⟩

end AlbScript
